import Mathlib

/-!
Shallow embedding of the NodeJS auth/timer application (src/index.js).

The three JSON collections (users, timers, sessions) are modelled as pure
Lean data inside `AppState`; each `X.write` call of the source increments a
write counter so that "no write is performed" is expressible.  External
randomness (nanoid) and bcrypt are passed in as explicit parameters.  The
Express response object is modelled by `Conn`: `trySend` records every
attempted send (`res.json` / `res.send` / `res.redirect`) together with the
fact that a send after the headers were already sent raises an exception in
Express (it is still recorded as an attempt).

A JS object used as a map is modelled as an association list with unique
keys (`objGet`, `objSet`, `objDelete`).
-/

structure User where
  _id : String
  username : String
  password : String
deriving Repr, DecidableEq

structure Timer where
  id : String
  start : Nat
  description : String
  isActive : Bool
  userId : Option String
  progress : Nat
  «end» : Option Nat
  duration : Option Int
deriving Repr, DecidableEq

/-- JS truthiness test for a request-body / cookie string field:
`undefined` (here `none`) and the empty string are falsy. -/
def strFalsy : Option String → Bool
  | none => true
  | some s => s == ""

/-- Lookup in a JS object: the value stored at key `k`, if present. -/
def objGet (m : List (String × String)) (k : String) : Option String :=
  (m.find? (fun p => p.1 == k)).map (fun p => p.2)

/-- Assignment `m[k] = v` on a JS object: overwrite the entry if the key is
present, otherwise append a new entry (JS objects keep insertion order). -/
def objSet (m : List (String × String)) (k v : String) : List (String × String) :=
  if m.any (fun p => p.1 == k) then
    m.map (fun p => if p.1 == k then (k, v) else p)
  else m ++ [(k, v)]

/-- Deletion `delete m[k]` on a JS object.  A JS object holds at most one
entry per key, so removing every pair with key `k` is the same operation. -/
def objDelete (m : List (String × String)) (k : String) : List (String × String) :=
  m.filter (fun p => p.1 != k)

/-- The persistent state of the application: the three collections backed by
`db` files, plus one write counter per collection counting the `.write`
calls performed. -/
structure AppState where
  users : List User
  timers : List Timer
  sessions : List (String × String)
  userWrites : Nat := 0
  timerWrites : Nat := 0
  sessionWrites : Nat := 0
deriving Repr, DecidableEq

/-- One resp payload of the application, as structured data. -/
inductive Payload where
  | jsonMsg (message : String)
  | timerJson (t : Timer)
  | timerList (ts : List Timer)
  | textResp (s : String)
  | redirectTo (loc : String)
  | renderIndex (user : Option User) (authError : Option String)
deriving Repr, DecidableEq

/-- The Express response object: the ordered list of send attempts
(`res.json`, `res.send`, `res.redirect`) made on it, as status/payload. -/
structure Conn where
  attempts : List (Nat × Payload)
deriving Repr, DecidableEq

/-- A fresh response object, before any send. -/
def conn0 : Conn := ⟨[]⟩

def Conn.headersSent (c : Conn) : Bool := !c.attempts.isEmpty

/-- Model of `res.status(s).json p` / `.send` / `.redirect`: records the
attempt and reports whether the call raised (Express raises
`ERR_HTTP_HEADERS_SENT` when a response was already sent). -/
def Conn.trySend (c : Conn) (s : Nat) (p : Payload) : Conn × Bool :=
  (⟨c.attempts ++ [(s, p)]⟩, c.headersSent)

/-- The JS error message raised by a second send on the same response. -/
def headersSentMessage : String := "Cannot set headers after they are sent to the client"

/-- The value returned by `checkSession`: either the session record
`{userId}` or — in the failure branch — the result of
`res.status(401).json(...)`, which in Express is the response object itself.
Both values are truthy in JS, so the callers' `if (!session) return` guard
can never fire. -/
inductive SessionVal where
  | resObj
  | sess (userId : String)
deriving Repr, DecidableEq

/-- Reading `.userId` off a `SessionVal`: on the response object the
property is absent (`undefined`). -/
def SessionVal.userId : SessionVal → Option String
  | .resObj => none
  | .sess u => some u

/-- `checkSession(req, res)` (src/index.js:53-63): reads the `sessionId`
cookie, looks it up in the sessions collection; if the cookie is falsy or no
session is found it sends a 401 and returns the response object, otherwise
it returns the session record. -/
def checkSession (sid : Option String) (sessions : List (String × String)) (c : Conn) :
    Conn × SessionVal :=
  let session := sid.bind (fun s => objGet sessions s)
  if strFalsy sid || session.isNone then
    ((c.trySend 401 (.jsonMsg "Unauthorized")).1, .resObj)
  else
    (c, .sess (session.getD ""))

/-- `updateSession(user)` (src/index.js:44-51): stores
`{freshId: {userId}}` in the sessions map and returns the new session id.
(The counter bump for `SESSIONS.write` is done by the calling handler.) -/
def updateSession (freshId : String) (userId : String)
    (sessions : List (String × String)) : String × List (String × String) :=
  (freshId, objSet sessions freshId userId)

/-- `POST /signup` (src/index.js:88-126).  `hashed` is the value produced by
`bcrypt.hash(password, 10)`, `freshUserId` and `freshSid` the two `nanoid()`
results. -/
def postSignup (st : AppState) (username password : Option String)
    (hashed freshUserId freshSid : String) (c : Conn) : AppState × Conn :=
  if strFalsy username || strFalsy password then
    (st, (c.trySend 400 (.jsonMsg "Username and password are required")).1)
  else
    match st.users.find? (fun u => u.username == username.getD "") with
    | some _ => (st, (c.trySend 409 (.jsonMsg "Username already taken")).1)
    | none =>
      let newUser : User := { _id := freshUserId, username := username.getD "",
                              password := hashed }
      let users' := st.users ++ [newUser]
      let sessions' := (updateSession freshSid newUser._id st.sessions).2
      let st' := { st with
                   users := users', userWrites := st.userWrites + 1,
                   sessions := sessions', sessionWrites := st.sessionWrites + 1 }
      (st', (c.trySend 302 (.redirectTo "/")).1)

/-- `POST /login` (src/index.js:128-162).  `verify pw hash` is
`bcrypt.compare(pw, hash)`. -/
def postLogin (st : AppState) (username password : Option String)
    (verify : String → String → Bool) (freshSid : String) (c : Conn) :
    AppState × Conn :=
  if strFalsy username || strFalsy password then
    (st, (c.trySend 400 (.jsonMsg "Username and password are required")).1)
  else
    match st.users.find? (fun u => u.username == username.getD "") with
    | none => (st, (c.trySend 404 (.jsonMsg "User not found")).1)
    | some user =>
      if !(verify (password.getD "") user.password) then
        (st, (c.trySend 401 (.jsonMsg "Incorrect password")).1)
      else
        let sessions' := (updateSession freshSid user._id st.sessions).2
        let st' := { st with
                     sessions := sessions',
                     sessionWrites := st.sessionWrites + 1 }
        (st', (c.trySend 302 (.redirectTo "/")).1)

/-- `GET /logout` (src/index.js:164-181).  The `if (!session) return` guard
never fires (see `SessionVal`), so in the 401 case the handler still deletes
and rewrites the sessions collection; `res.clearCookie` then raises because
the headers were already sent, so the redirect is never attempted. -/
def getLogout (st : AppState) (sid : Option String) (c : Conn) : AppState × Conn :=
  let r := checkSession sid st.sessions c
  let c1 := r.1
  let key := match sid with
    | none => "undefined"
    | some s => s
  let sessions' := objDelete st.sessions key
  let st' := { st with sessions := sessions', sessionWrites := st.sessionWrites + 1 }
  if c1.headersSent then (st', c1)
  else (st', (c1.trySend 302 (.redirectTo "/")).1)

/-- The `authError` value passed to the template (src/index.js:197). -/
def authErrorValue (q : Option String) : Option String :=
  if q == some "true" then some "Wrong username or password" else q

/-- The `user` value passed to the template by `GET /` (src/index.js:184-193):
the full User record, found by the session's userId. -/
def homeUser (st : AppState) (sid : Option String) : Option User :=
  match sid with
  | none => none
  | some s =>
    if s == "" then none
    else
      match objGet st.sessions s with
      | none => none
      | some uid => st.users.find? (fun u => u._id == uid)

/-- `GET /` (src/index.js:183-199): renders the index template with the full
user record and the auth error string. -/
def getHome (st : AppState) (sid : Option String) (authErrorQ : Option String)
    (c : Conn) : AppState × Conn :=
  (st, (c.trySend 200 (.renderIndex (homeUser st sid) (authErrorValue authErrorQ))).1)

/-- The boolean derived from the raw `isActive` query value
(src/index.js:206): strict equality with the string "true". -/
def isActiveQueryBool (q : Option String) : Bool := q == some "true"

/-- The filter of src/index.js:209: timers whose `isActive` equals the
boolean flag and whose `userId` equals the session's userId. -/
def listTimers (timers : List Timer) (isActiveBool : Bool) (uid : Option String) :
    List Timer :=
  timers.filter (fun t => t.isActive == isActiveBool && t.userId == uid)

/-- `GET /api/timers` (src/index.js:201-211). -/
def getTimers (st : AppState) (sid : Option String) (isActiveQ : Option String)
    (c : Conn) : AppState × Conn :=
  let r := checkSession sid st.sessions c
  let c1 := r.1
  let filtered := listTimers st.timers (isActiveQueryBool isActiveQ) r.2.userId
  (st, (c1.trySend 200 (.timerList filtered)).1)

/-- `POST /api/timers` (src/index.js:213-241).  A falsy description throws,
and the catch responds 400 with the error message; when a 201 send raises
(headers already sent, see `SessionVal`), the catch responds 400 with the
raised error's message. -/
def postTimers (st : AppState) (sid : Option String) (description : Option String)
    (freshId : String) (now : Nat) (c : Conn) : AppState × Conn :=
  let r := checkSession sid st.sessions c
  let c1 := r.1
  if strFalsy description then
    (st, (c1.trySend 400 (.jsonMsg "Description is required")).1)
  else
    let tm : Timer := { id := freshId, start := now, description := description.getD "",
                        isActive := true, userId := r.2.userId, progress := 0,
                        «end» := none, duration := none }
    let st' := { st with
                 timers := st.timers ++ [tm],
                 timerWrites := st.timerWrites + 1 }
    let s1 := c1.trySend 201 (.timerJson tm)
    if s1.2 then
      (st', (s1.1.trySend 400 (.jsonMsg headersSentMessage)).1)
    else
      (st', s1.1)

/-- The in-place mutation of src/index.js:256-258: `isActive = false`,
`end = now`, `duration = end - start`. -/
def stopUpdate (now : Nat) (t : Timer) : Timer :=
  { t with
    isActive := false, «end» := some now,
    duration := some ((now : Int) - (t.start : Int)) }

/-- `timers.find(t => t.id === id && t.userId === uid)` followed by in-place
mutation of the found record inside the array: returns the mutated record
(if any) and the resulting array. -/
def stopInList (uid : Option String) (id : String) (now : Nat) :
    List Timer → Option Timer × List Timer
  | [] => (none, [])
  | t :: ts =>
    if t.id == id && t.userId == uid then
      (some (stopUpdate now t), stopUpdate now t :: ts)
    else
      let r := stopInList uid id now ts
      (r.1, t :: r.2)

/-- `POST /api/timers/:id/stop` (src/index.js:243-263): 403 "Access denied"
(and no write) when no timer matches both the id and the session's userId,
otherwise mutate, write the whole collection and return the updated timer. -/
def postTimerStop (st : AppState) (sid : Option String) (id : String) (now : Nat)
    (c : Conn) : AppState × Conn :=
  let r := checkSession sid st.sessions c
  let c1 := r.1
  let found := stopInList r.2.userId id now st.timers
  match found.1 with
  | none => (st, (c1.trySend 403 (.textResp "Access denied")).1)
  | some t' =>
    let st' := { st with timers := found.2, timerWrites := st.timerWrites + 1 }
    (st', (c1.trySend 200 (.timerJson t')).1)

/-- User records embedded in a resp payload (the only payload embedding a
User record is the index render). -/
def Payload.userRecords : Payload → List User
  | .renderIndex (some u) _ => [u]
  | _ => []

/-- The password fields of the User records embedded in a payload. -/
def Payload.passwordFields (p : Payload) : List String :=
  p.userRecords.map (fun u => u.password)

/-! Concrete fixtures used by counterexamples and witnesses. -/

def exUser1 : User := { _id := "u1", username := "alice", password := "HASH1" }

def exTimerActive : Timer :=
  { id := "T1", start := 10, description := "write spec", isActive := true,
    userId := some "u1", progress := 0, «end» := none, duration := none }

def exTimerForeign : Timer :=
  { id := "T2", start := 11, description := "other", isActive := true,
    userId := some "u2", progress := 0, «end» := none, duration := none }

def exState : AppState :=
  { users := [exUser1], timers := [exTimerActive, exTimerForeign],
    sessions := [("S1", "u1")] }

def exTimerStopped : Timer :=
  { id := "T3", start := 10, description := "done", isActive := false,
    userId := some "u1", progress := 0, «end» := some 20, duration := some 10 }

def exStateStopped : AppState :=
  { users := [exUser1], timers := [exTimerStopped], sessions := [("S1", "u1")] }

/-- C1: at the failing input — `POST /api/timers` with no session cookie and
body description "work" on an empty store — the code does send the 401
response, but because `checkSession` returns the truthy response object the
`if (!session) return` guard does not fire: the handler body runs, appends a
timer whose `userId` is `undefined`, writes the timers collection, and
attempts two further sends.  This contradicts the claim that the rejection
is side-effect-free and that the handler body does not run. -/
theorem c1_unauthorized_request_still_writes :
    postTimers { users := [], timers := [], sessions := [] } none (some "work")
      "T1" 5 conn0 =
      ({ users := [],
         timers := [{ id := "T1", start := 5, description := "work",
                      isActive := true, userId := none, progress := 0,
                      «end» := none, duration := none }],
         sessions := [], userWrites := 0, timerWrites := 1, sessionWrites := 0 },
       ⟨[(401, .jsonMsg "Unauthorized"),
         (201, .timerJson { id := "T1", start := 5, description := "work",
                            isActive := true, userId := none, progress := 0,
                            «end» := none, duration := none }),
         (400, .jsonMsg headersSentMessage)]⟩) := by decide

/-- C2 counterexample: with one stored user (password hash "HASH1") and a
valid session, the home-page render payload embeds the full User record, so
the response payload contains the stored password hash — the claim as
stated is false. -/
theorem c2_home_render_contains_hash :
    ((getHome exState (some "S1") none conn0).2.attempts.map
        (fun a => Payload.passwordFields a.2)) = [["HASH1"]] ∧
    exState.users.map (fun u => u.password) = ["HASH1"] := by decide

/-- C3 counterexample: a Timer already stopped (isActive=false, end=20,
duration=10) is mutated again by a stop request from its owner at time 50:
`end` becomes 50 and `duration` 40, so a stopped Timer is not terminal. -/
theorem c3_stopped_timer_restopped :
    exTimerStopped.isActive = false ∧ exTimerStopped.«end» = some 20 ∧
    (postTimerStop exStateStopped (some "S1") "T3" 50 conn0).1.timers =
      [{ exTimerStopped with «end» := some 50, duration := some 40 }] := by decide

/-! Helper lemmas about the stop operation. -/

theorem stopInList_not_found (uid : Option String) (id : String) (now : Nat)
    (l : List Timer) (h : ∀ t ∈ l, ¬(t.id = id ∧ t.userId = uid)) :
    stopInList uid id now l = (none, l) := by
  induction l with
  | nil => rfl
  | cons t ts ih =>
    have ht : (t.id == id && t.userId == uid) = false := by
      have := h t (List.mem_cons_self t ts)
      simp only [Bool.and_eq_false_iff, beq_eq_false_iff_ne]
      tauto
    simp [stopInList, ht, ih (fun x hx => h x (List.mem_cons_of_mem _ hx))]

theorem stopInList_found (uid : Option String) (id : String) (now : Nat)
    (pre post : List Timer) (tm : Timer)
    (hpre : ∀ t ∈ pre, ¬(t.id = id ∧ t.userId = uid))
    (hid : tm.id = id) (huid : tm.userId = uid) :
    stopInList uid id now (pre ++ tm :: post) =
      (some (stopUpdate now tm), pre ++ stopUpdate now tm :: post) := by
  induction pre with
  | nil => simp [stopInList, hid, huid]
  | cons t ts ih =>
    have ht : (t.id == id && t.userId == uid) = false := by
      have := hpre t (List.mem_cons_self t ts)
      simp only [Bool.and_eq_false_iff, beq_eq_false_iff_ne]
      tauto
    simp [stopInList, ht, ih (fun x hx => hpre x (List.mem_cons_of_mem _ hx))]

/-- C4: for an authenticated user u, a stop request for a timer id that
either does not exist or is owned by a different user yields the single
constant 403 "Access denied" response — identical in both cases — and
leaves the whole state (timers collection and write counters) unchanged. -/
theorem c4_stop_foreign_or_missing_forbidden (st : AppState) (sid : Option String)
    (u tid : String) (now : Nat)
    (hauth : checkSession sid st.sessions conn0 = (conn0, .sess u))
    (hnone : ∀ t ∈ st.timers, t.id = tid → t.userId ≠ some u) :
    postTimerStop st sid tid now conn0 =
      (st, ⟨[(403, .textResp "Access denied")]⟩) := by
  have hfind : stopInList (some u) tid now st.timers = (none, st.timers) :=
    stopInList_not_found _ _ _ _ (fun t ht hc => hnone t ht hc.1 hc.2)
  simp only [conn0] at hauth
  simp [postTimerStop, hauth, SessionVal.userId, hfind, Conn.trySend, conn0]

/-- C4 witness: user u1 stopping timer id "T2", which exists but belongs to
user u2, gets the 403 response and the state is untouched. -/
theorem c4_stop_witness :
    postTimerStop exState (some "S1") "T2" 50 conn0 =
      (exState, ⟨[(403, .textResp "Access denied")]⟩) :=
  c4_stop_foreign_or_missing_forbidden exState (some "S1") "u1" "T2" 50
    (by decide) (by decide)

/-- C5: for an authenticated user u stopping their own active timer (the
first timer matching the id and owner in storage order), the handler
replaces exactly that timer by its stopped version — isActive=false,
end=now, duration=now-start, all other fields as before — leaves every
other timer unchanged, performs exactly one write of the collection, and
returns the updated timer with status 200. -/
theorem c5_stop_success (st : AppState) (sid : Option String) (u tid : String)
    (now : Nat) (pre post : List Timer) (tm : Timer)
    (hauth : checkSession sid st.sessions conn0 = (conn0, .sess u))
    (hsplit : st.timers = pre ++ tm :: post)
    (hpre : ∀ t ∈ pre, ¬(t.id = tid ∧ t.userId = some u))
    (hid : tm.id = tid) (huid : tm.userId = some u) (hact : tm.isActive = true) :
    postTimerStop st sid tid now conn0 =
      ({ st with
         timers := pre ++ stopUpdate now tm :: post,
         timerWrites := st.timerWrites + 1 },
       ⟨[(200, .timerJson (stopUpdate now tm))]⟩) ∧
    stopUpdate now tm = { tm with
                          isActive := false, «end» := some now,
                          duration := some ((now : Int) - (tm.start : Int)) } := by
  have hfind : stopInList (some u) tid now st.timers =
      (some (stopUpdate now tm), pre ++ stopUpdate now tm :: post) := by
    rw [hsplit]; exact stopInList_found _ _ _ _ _ _ hpre hid huid
  constructor
  · simp only [conn0] at hauth
    simp [postTimerStop, hauth, SessionVal.userId, hfind, Conn.trySend, conn0]
  · rfl

/-- C5 witness: user u1 stopping their active timer "T1" at time 50 yields
the stopped timer (end=50, duration=40) in place, the foreign timer
untouched, one collection write, and the 200 response. -/
theorem c5_stop_success_witness :
    postTimerStop exState (some "S1") "T1" 50 conn0 =
      ({ exState with
         timers := [stopUpdate 50 exTimerActive, exTimerForeign],
         timerWrites := exState.timerWrites + 1 },
       ⟨[(200, .timerJson (stopUpdate 50 exTimerActive))]⟩) :=
  (c5_stop_success exState (some "S1") "u1" "T1" 50 [] [exTimerForeign]
    exTimerActive (by decide) (by decide) (by decide) (by decide) (by decide)
    (by decide)).1

/-- C6: for an authenticated user u, the list operation responds 200 with
exactly the stored timers whose userId equals u and whose isActive equals
the boolean filter, in storage order (the result is a sublist of the
collection, no sort), and every returned timer belongs to u. -/
theorem c6_list_exact (st : AppState) (sid : Option String) (u : String)
    (q : Option String) (b : Bool)
    (hauth : checkSession sid st.sessions conn0 = (conn0, .sess u)) :
    getTimers st sid q conn0 =
      (st, ⟨[(200, .timerList
        (listTimers st.timers (isActiveQueryBool q) (some u)))]⟩) ∧
    listTimers st.timers b (some u) =
      st.timers.filter (fun t => decide (t.userId = some u ∧ t.isActive = b)) ∧
    List.Sublist (listTimers st.timers b (some u)) st.timers ∧
    (listTimers st.timers b (some u)).all (fun t => t.userId == some u) = true := by
  refine ⟨?_, ?_, ?_, ?_⟩
  · simp only [conn0] at hauth
    simp [getTimers, hauth, SessionVal.userId, Conn.trySend, conn0]
  · unfold listTimers
    refine List.filter_congr (fun t _ => ?_)
    by_cases h1 : t.userId = some u <;> by_cases h2 : t.isActive = b <;>
      simp [h1, h2]
  · exact List.filter_sublist _
  · rw [List.all_eq_true]
    intro t ht
    have := List.of_mem_filter ht
    simp only [Bool.and_eq_true] at this
    exact this.2

/-- C6 witness: user u1 listing active timers over a store holding one
active timer of u1 and one of u2 gets exactly u1's timer. -/
theorem c6_list_exact_witness :
    getTimers exState (some "S1") (some "true") conn0 =
      (exState, ⟨[(200, .timerList
        (listTimers exState.timers (isActiveQueryBool (some "true")) (some "u1")))]⟩) ∧
    listTimers exState.timers true (some "u1") = [exTimerActive] :=
  ⟨(c6_list_exact exState (some "S1") "u1" (some "true") true (by decide)).1,
   by decide⟩

/-! Helper lemmas about the JS-object model. -/

theorem objGet_cons (p : String × String) (ps : List (String × String)) (k : String) :
    objGet (p :: ps) k = if p.1 == k then some p.2 else objGet ps k := by
  unfold objGet
  rw [List.find?_cons]
  by_cases hp : (p.1 == k) = true <;> simp [hp]

theorem objGet_map_overwrite (k v : String) (m : List (String × String))
    (h : m.any (fun q => q.1 == k) = true) :
    objGet (m.map (fun p => if p.1 == k then (k, v) else p)) k = some v := by
  induction m with
  | nil => simp at h
  | cons p ps ih =>
    by_cases hp : (p.1 == k) = true
    · have hhd : (if p.1 == k then ((k, v) : String × String) else p) = (k, v) := by
        rw [if_pos hp]
      rw [List.map_cons, hhd, objGet_cons]
      simp
    · have hps : ps.any (fun q => q.1 == k) = true := by
        simp only [List.any_cons, Bool.or_eq_true] at h
        tauto
      have hhd : (if p.1 == k then ((k, v) : String × String) else p) = p := by
        rw [if_neg hp]
      rw [List.map_cons, hhd, objGet_cons, if_neg hp]
      exact ih hps

theorem objGet_append_fresh (k v : String) (m : List (String × String))
    (h : m.any (fun q => q.1 == k) = false) :
    objGet (m ++ [(k, v)]) k = some v := by
  induction m with
  | nil => simp [objGet]
  | cons p ps ih =>
    simp only [List.any_cons, Bool.or_eq_false_iff] at h
    rw [List.cons_append, objGet_cons, if_neg (by simp [h.1])]
    exact ih h.2

theorem objGet_objSet_self (m : List (String × String)) (k v : String) :
    objGet (objSet m k v) k = some v := by
  unfold objSet
  by_cases ha : m.any (fun q => q.1 == k) = true
  · rw [if_pos ha]
    exact objGet_map_overwrite k v m ha
  · have ha' : m.any (fun q => q.1 == k) = false := Bool.eq_false_iff.mpr ha
    rw [if_neg (by simp [ha'])]
    exact objGet_append_fresh k v m ha'

theorem objGet_objDelete_self (m : List (String × String)) (k : String) :
    objGet (objDelete m k) k = none := by
  unfold objGet
  rw [Option.map_eq_none', List.find?_eq_none]
  intro p hp
  have := List.of_mem_filter hp
  simpa [bne] using this

/-- C7: a session identifier issued by `updateSession` (the session-creation
step shared by signup and login) resolves through `checkSession` to the
issuing user's id; after the logout deletion of that identifier, resolution
fails with the 401 response; and the logout handler removes exactly that
identifier from the sessions collection. -/
theorem c7_session_roundtrip (sessions : List (String × String))
    (st : AppState) (u fresh : String) (hfresh : fresh ≠ "") :
    checkSession (some fresh) (updateSession fresh u sessions).2 conn0 =
      (conn0, .sess u) ∧
    checkSession (some fresh)
        (objDelete (updateSession fresh u sessions).2 fresh) conn0 =
      (⟨[(401, .jsonMsg "Unauthorized")]⟩, .resObj) ∧
    (getLogout { st with sessions := (updateSession fresh u sessions).2 }
        (some fresh) conn0).1.sessions =
      objDelete (updateSession fresh u sessions).2 fresh := by
  have hne : (fresh == "") = false := by
    exact beq_eq_false_iff_ne.mpr hfresh
  refine ⟨?_, ?_, ?_⟩
  · simp [checkSession, strFalsy, hne, updateSession, objGet_objSet_self]
  · simp [checkSession, strFalsy, hne, updateSession, objGet_objDelete_self,
      Conn.trySend, conn0]
  · simp only [getLogout, updateSession]
    split <;> rfl

/-- C7 witness: a fresh session "N1" created for user u1 over an empty
mapping resolves to u1, and no longer resolves after revocation. -/
theorem c7_session_roundtrip_witness :
    checkSession (some "N1") (updateSession "N1" "u1" []).2 conn0 =
      (conn0, .sess "u1") ∧
    checkSession (some "N1")
        (objDelete (updateSession "N1" "u1" []).2 "N1") conn0 =
      (⟨[(401, .jsonMsg "Unauthorized")]⟩, .resObj) :=
  ⟨(c7_session_roundtrip [] exState "u1" "N1" (by decide)).1,
   (c7_session_roundtrip [] exState "u1" "N1" (by decide)).2.1⟩

/-- C8: signup returns the 400 validation response exactly when username or
password is falsy (empty/absent) and leaves the state untouched; with valid
fields it returns the 409 conflict response exactly when some stored user
already has that username (whatever the password), again with no state
change; otherwise it appends the new user (hashed password), creates a
session, redirects, and the result preserves pairwise-distinct usernames. -/
theorem c8_signup_cases (st : AppState) (username password : Option String)
    (hashed fuid fsid : String) :
    ((strFalsy username || strFalsy password) = true →
      postSignup st username password hashed fuid fsid conn0 =
        (st, ⟨[(400, .jsonMsg "Username and password are required")]⟩)) ∧
    ((strFalsy username || strFalsy password) = false →
      (∃ w ∈ st.users, w.username = username.getD "") →
      postSignup st username password hashed fuid fsid conn0 =
        (st, ⟨[(409, .jsonMsg "Username already taken")]⟩)) ∧
    ((strFalsy username || strFalsy password) = false →
      (∀ w ∈ st.users, w.username ≠ username.getD "") →
      postSignup st username password hashed fuid fsid conn0 =
        ({ st with
           users := st.users ++ [{ _id := fuid, username := username.getD "",
                                   password := hashed }],
           userWrites := st.userWrites + 1,
           sessions := objSet st.sessions fsid fuid,
           sessionWrites := st.sessionWrites + 1 },
         ⟨[(302, .redirectTo "/")]⟩)) ∧
    ((∀ w ∈ st.users, w.username ≠ username.getD "") →
      st.users.Pairwise (fun a b => a.username ≠ b.username) →
      (st.users ++ [({ _id := fuid, username := username.getD "",
                       password := hashed } : User)]).Pairwise
        (fun a b => a.username ≠ b.username)) := by
  refine ⟨?_, ?_, ?_, ?_⟩
  · intro hval
    simp [postSignup, hval, Conn.trySend, conn0]
  · intro hval hex
    have hfind : (st.users.find? (fun u => u.username == username.getD "")).isSome := by
      refine List.find?_isSome.mpr ?_
      obtain ⟨w, hw, he⟩ := hex
      exact ⟨w, hw, by simp [he]⟩
    obtain ⟨w, hw⟩ := Option.isSome_iff_exists.mp hfind
    simp [postSignup, hval, hw, Conn.trySend, conn0]
  · intro hval hnone
    have hfind : st.users.find? (fun u => u.username == username.getD "") = none := by
      refine List.find?_eq_none.mpr (fun w hw => ?_)
      simpa using hnone w hw
    simp [postSignup, hval, hfind, updateSession, Conn.trySend, conn0]
  · intro hnone hp
    rw [List.pairwise_append]
    refine ⟨hp, List.pairwise_singleton _ _, fun a ha b hb => ?_⟩
    simp only [List.mem_singleton] at hb
    subst hb
    exact hnone a ha

/-- C8 witness: on a store holding alice, signup with a fresh username "bob"
succeeds and appends the new user; a second signup as "alice" is rejected
with the 409 conflict and no state change; signup with empty password is
rejected with the 400 validation response. -/
theorem c8_signup_cases_witness :
    postSignup exState (some "bob") (some "pw2") "HASH2" "u3" "S3" conn0 =
      ({ exState with
         users := exState.users ++ [{ _id := "u3", username := "bob",
                                      password := "HASH2" }],
         userWrites := exState.userWrites + 1,
         sessions := objSet exState.sessions "S3" "u3",
         sessionWrites := exState.sessionWrites + 1 },
       ⟨[(302, .redirectTo "/")]⟩) ∧
    postSignup exState (some "alice") (some "pw9") "HASH9" "u9" "S9" conn0 =
      (exState, ⟨[(409, .jsonMsg "Username already taken")]⟩) ∧
    postSignup exState (some "carol") (some "") "HASH8" "u8" "S8" conn0 =
      (exState, ⟨[(400, .jsonMsg "Username and password are required")]⟩) :=
  ⟨(c8_signup_cases exState (some "bob") (some "pw2") "HASH2" "u3" "S3").2.2.1
      (by decide) (by decide),
   (c8_signup_cases exState (some "alice") (some "pw9") "HASH9" "u9" "S9").2.1
      (by decide) ⟨exUser1, by decide, by decide⟩,
   (c8_signup_cases exState (some "carol") (some "") "HASH8" "u8" "S8").1
      (by decide)⟩

/-- The Timer record built by `POST /api/timers` (src/index.js:223-230). -/
def newTimer (freshId : String) (now : Nat) (d : String) (uid : Option String) :
    Timer :=
  { id := freshId, start := now, description := d, isActive := true,
    userId := uid, progress := 0, «end» := none, duration := none }

/-- C9: for an authenticated user u and non-empty description d, starting a
timer appends a Timer with isActive=true, progress=0, start=now and
userId=u and returns it with 201; the active-filter list over the resulting
collection contains that Timer exactly once, and the inactive-filter list
excludes it. -/
theorem c9_start_then_list (st : AppState) (sid : Option String) (u d fresh : String)
    (now : Nat)
    (hauth : checkSession sid st.sessions conn0 = (conn0, .sess u))
    (hd : d ≠ "") (hfresh : ∀ t ∈ st.timers, t.id ≠ fresh) :
    postTimers st sid (some d) fresh now conn0 =
      ({ st with
         timers := st.timers ++ [newTimer fresh now d (some u)],
         timerWrites := st.timerWrites + 1 },
       ⟨[(201, .timerJson (newTimer fresh now d (some u)))]⟩) ∧
    (listTimers (st.timers ++ [newTimer fresh now d (some u)]) true
        (some u)).count (newTimer fresh now d (some u)) = 1 ∧
    newTimer fresh now d (some u) ∉
      listTimers (st.timers ++ [newTimer fresh now d (some u)]) false (some u) ∧
    (newTimer fresh now d (some u)).isActive = true ∧
    (newTimer fresh now d (some u)).progress = 0 ∧
    (newTimer fresh now d (some u)).start = now ∧
    (newTimer fresh now d (some u)).userId = some u := by
  have hdf : strFalsy (some d) = false := by
    simpa [strFalsy] using hd
  have hnotmem : newTimer fresh now d (some u) ∉ st.timers := fun hm =>
    hfresh _ hm rfl
  refine ⟨?_, ?_, ?_, rfl, rfl, rfl, rfl⟩
  · simp only [conn0] at hauth
    simp [postTimers, hauth, hdf, SessionVal.userId, Conn.trySend,
      Conn.headersSent, conn0, newTimer]
  · rw [listTimers, List.filter_append, List.count_append]
    have h1 : (st.timers.filter
        (fun t => t.isActive == true && t.userId == some u)).count
        (newTimer fresh now d (some u)) = 0 :=
      List.count_eq_zero.mpr (fun hm => hnotmem (List.mem_of_mem_filter hm))
    have h2 : ([newTimer fresh now d (some u)].filter
        (fun t => t.isActive == true && t.userId == some u)) =
        [newTimer fresh now d (some u)] := by
      simp [newTimer]
    rw [h1, h2]
    simp
  · intro hm
    have := List.mem_of_mem_filter hm
    rw [List.mem_append] at this
    rcases this with hold | hnew
    · exact hnotmem hold
    · have hfm := List.of_mem_filter hm
      simp [newTimer] at hfm

/-- C9 witness: user u1 starting timer "T9" ("review") at time 60 over the
two-timer store, then listing: the new timer appears exactly once in the
active list and not at all in the stopped list. -/
theorem c9_start_then_list_witness :
    postTimers exState (some "S1") (some "review") "T9" 60 conn0 =
      ({ exState with
         timers := exState.timers ++ [newTimer "T9" 60 "review" (some "u1")],
         timerWrites := exState.timerWrites + 1 },
       ⟨[(201, .timerJson (newTimer "T9" 60 "review" (some "u1")))]⟩) ∧
    (listTimers (exState.timers ++ [newTimer "T9" 60 "review" (some "u1")]) true
        (some "u1")).count (newTimer "T9" 60 "review" (some "u1")) = 1 ∧
    newTimer "T9" 60 "review" (some "u1") ∉
      listTimers (exState.timers ++ [newTimer "T9" 60 "review" (some "u1")])
        false (some "u1") :=
  ⟨(c9_start_then_list exState (some "S1") "u1" "review" "T9" 60 (by decide)
      (by decide) (by decide)).1,
   (c9_start_then_list exState (some "S1") "u1" "review" "T9" 60 (by decide)
      (by decide) (by decide)).2.1,
   (c9_start_then_list exState (some "S1") "u1" "review" "T9" 60 (by decide)
      (by decide) (by decide)).2.2.1⟩

/-- C10: the list operation's isActive flag comes from strict string
comparison of the raw query value with "true": it is true for exactly the
value "true", and for any other value (absent, "1", "TRUE", ...) the
operation succeeds with 200 and returns the caller's stopped
(isActive=false) timers. -/
theorem c10_isActive_query_parse (st : AppState) (sid : Option String) (u : String)
    (q : Option String)
    (hauth : checkSession sid st.sessions conn0 = (conn0, .sess u))
    (hq : q ≠ some "true") :
    isActiveQueryBool q = false ∧
    (∀ r : Option String, isActiveQueryBool r = true ↔ r = some "true") ∧
    isActiveQueryBool (some "TRUE") = false ∧
    isActiveQueryBool (some "1") = false ∧
    isActiveQueryBool none = false ∧
    getTimers st sid q conn0 =
      (st, ⟨[(200, .timerList (listTimers st.timers false (some u)))]⟩) ∧
    (listTimers st.timers false (some u)).all
      (fun t => t.isActive == false) = true := by
  have hqb : isActiveQueryBool q = false := by
    simpa [isActiveQueryBool] using hq
  refine ⟨hqb, fun r => by simp [isActiveQueryBool], by decide, by decide,
    by decide, ?_, ?_⟩
  · simp only [conn0] at hauth
    simp [getTimers, hauth, hqb, SessionVal.userId, Conn.trySend, conn0]
  · rw [List.all_eq_true]
    intro t ht
    have := List.of_mem_filter ht
    simp only [Bool.and_eq_true] at this
    simpa using this.1

/-- C10 witness: with the raw query value "TRUE", user u1 gets a 200 with
their stopped timers (here: none). -/
theorem c10_isActive_query_parse_witness :
    getTimers exState (some "S1") (some "TRUE") conn0 =
      (exState, ⟨[(200, .timerList (listTimers exState.timers false (some "u1")))]⟩) :=
  (c10_isActive_query_parse exState (some "S1") "u1" (some "TRUE") (by decide)
    (by decide)).2.2.2.2.2.1

/-- Helper: `checkSession` either leaves the response object untouched or
appends exactly the 401 "Unauthorized" send to it. -/
theorem checkSession_conn_cases (sid : Option String) (s : List (String × String))
    (c : Conn) :
    (checkSession sid s c).1 = c ∨
    (checkSession sid s c).1 = ⟨c.attempts ++ [(401, .jsonMsg "Unauthorized")]⟩ := by
  unfold checkSession
  dsimp only
  split
  · exact Or.inr rfl
  · exact Or.inl rfl

/-- C2 (amended): every response attempted by signup, login, logout, timer
list, timer create and timer stop — on any state, any input, authorized or
not — embeds no User record at all, hence no password field; the home page,
by contrast, renders the full User record of the session's user together
with the auth error value (see the counterexample for the hash leak). -/
theorem c2_no_user_record_outside_home (st : AppState)
    (username password sid d q : Option String)
    (hashed fuid fsid freshId tid : String) (verify : String → String → Bool)
    (now : Nat) :
    ((postSignup st username password hashed fuid fsid conn0).2.attempts.all
      (fun a => a.2.userRecords.isEmpty)) = true ∧
    ((postLogin st username password verify fsid conn0).2.attempts.all
      (fun a => a.2.userRecords.isEmpty)) = true ∧
    ((getLogout st sid conn0).2.attempts.all
      (fun a => a.2.userRecords.isEmpty)) = true ∧
    ((getTimers st sid q conn0).2.attempts.all
      (fun a => a.2.userRecords.isEmpty)) = true ∧
    ((postTimers st sid d freshId now conn0).2.attempts.all
      (fun a => a.2.userRecords.isEmpty)) = true ∧
    ((postTimerStop st sid tid now conn0).2.attempts.all
      (fun a => a.2.userRecords.isEmpty)) = true ∧
    (getHome st sid q conn0).2.attempts =
      [(200, .renderIndex (homeUser st sid) (authErrorValue q))] := by
  refine ⟨?_, ?_, ?_, ?_, ?_, ?_, rfl⟩
  · unfold postSignup
    split
    · simp [Conn.trySend, conn0, Payload.userRecords]
    · split <;> simp [Conn.trySend, conn0, Payload.userRecords]
  · unfold postLogin
    split
    · simp [Conn.trySend, conn0, Payload.userRecords]
    · split
      · simp [Conn.trySend, conn0, Payload.userRecords]
      · split <;> simp [Conn.trySend, conn0, Payload.userRecords]
  · unfold getLogout
    dsimp only
    rcases checkSession_conn_cases sid st.sessions conn0 with h | h <;> rw [h] <;>
      simp [Conn.trySend, Conn.headersSent, conn0, Payload.userRecords]
  · unfold getTimers
    dsimp only
    rcases checkSession_conn_cases sid st.sessions conn0 with h | h <;> rw [h] <;>
      simp [Conn.trySend, conn0, Payload.userRecords]
  · unfold postTimers
    dsimp only
    rcases checkSession_conn_cases sid st.sessions conn0 with h | h
    · rw [h]
      split <;> simp [Conn.trySend, Conn.headersSent, conn0, Payload.userRecords]
    · rw [h]
      split <;> simp [Conn.trySend, Conn.headersSent, conn0, Payload.userRecords]
  · unfold postTimerStop
    dsimp only
    rcases checkSession_conn_cases sid st.sessions conn0 with h | h
    · rw [h]
      split <;> simp [Conn.trySend, conn0, Payload.userRecords]
    · rw [h]
      split <;> simp [Conn.trySend, conn0, Payload.userRecords]

/-- Helper: the stop operation rewrites each timer of the collection either
to itself or to its stopped version. -/
theorem stopInList_forall₂ (uid : Option String) (id : String) (now : Nat)
    (l : List Timer) :
    List.Forall₂ (fun o n => n = o ∨ n = stopUpdate now o) l
      (stopInList uid id now l).2 := by
  induction l with
  | nil => exact List.Forall₂.nil
  | cons t ts ih =>
    unfold stopInList
    by_cases h : (t.id == id && t.userId == uid) = true
    · rw [if_pos h]
      exact List.Forall₂.cons (Or.inr rfl)
        (List.forall₂_same.mpr (fun x _ => Or.inl rfl))
    · rw [if_neg h]
      exact List.Forall₂.cons (Or.inl rfl) ih

/-- C3 (amended): every timer in the collection after a stop request is
either unchanged or the stopped version of the old record, and the stopped
version keeps isActive=false and preserves id, userId, description, start
and progress — so a stopped timer is never reactivated and only its end and
duration can be recomputed, by a further stop; no other operation modifies
any existing timer (list, home, logout, signup and login leave the
collection untouched, and timer creation only appends). -/
theorem c3_stop_only_recomputes (st : AppState) (sid : Option String)
    (tid : String) (now : Nat) (q username password d : Option String)
    (hashed fuid fsid freshId : String) (verify : String → String → Bool) :
    List.Forall₂ (fun o n => n = o ∨ n = stopUpdate now o) st.timers
      (postTimerStop st sid tid now conn0).1.timers ∧
    (∀ t : Timer, (stopUpdate now t).isActive = false ∧
      (stopUpdate now t).id = t.id ∧ (stopUpdate now t).userId = t.userId ∧
      (stopUpdate now t).description = t.description ∧
      (stopUpdate now t).start = t.start ∧
      (stopUpdate now t).progress = t.progress) ∧
    (getTimers st sid q conn0).1.timers = st.timers ∧
    (getHome st sid q conn0).1.timers = st.timers ∧
    (getLogout st sid conn0).1.timers = st.timers ∧
    (postSignup st username password hashed fuid fsid conn0).1.timers = st.timers ∧
    (postLogin st username password verify fsid conn0).1.timers = st.timers ∧
    (∃ ap, (postTimers st sid d freshId now conn0).1.timers = st.timers ++ ap) := by
  refine ⟨?_, ?_, rfl, rfl, ?_, ?_, ?_, ?_⟩
  · unfold postTimerStop
    dsimp only
    split
    · exact List.forall₂_same.mpr (fun x _ => Or.inl rfl)
    · exact stopInList_forall₂ _ _ _ _
  · intro t
    exact ⟨rfl, rfl, rfl, rfl, rfl, rfl⟩
  · unfold getLogout
    dsimp only
    cases sid <;> (dsimp only; split <;> rfl)
  · unfold postSignup
    split
    · rfl
    · split <;> rfl
  · unfold postLogin
    split
    · rfl
    · split
      · rfl
      · split <;> rfl
  · unfold postTimers
    dsimp only
    split
    · exact ⟨[], by simp⟩
    · split <;> exact ⟨_, rfl⟩
